import Mathlib

/-!
Verification development for the zotero-voyant-export core: the XML escaper
and metadata generators (src/src/Format.res and the legacy lib/format.js),
the retry utilities (src/src/ErrorRecovery.res), and the export pipeline
(src/src/Exporter.res and the legacy lib/exporter.js).  Text is modelled as
`List Char` (the string's character sequence); JavaScript nullability is
modelled with `Option`; thrown exceptions with `Except` or an explicit
`AttemptResult`.
-/

/-- Character 60, the less-than sign. -/
def ltC : Char := Char.ofNat 60

/-- Character 62, the greater-than sign. -/
def gtC : Char := Char.ofNat 62

/-- Character 38, the ampersand. -/
def ampC : Char := Char.ofNat 38

/-- Character 34, the double quote. -/
def quotC : Char := Char.ofNat 34

/-- Character 39, the apostrophe. -/
def aposC : Char := Char.ofNat 39

/-- Character 10, the line feed. -/
def lfC : Char := Char.ofNat 10

/-- Character 32, the space. -/
def spC : Char := Char.ofNat 32

namespace Format

/-- One `String.replaceAll` pass with a single-character pattern `p` and
replacement `r`, as used by `escapeXml` in src/src/Format.res: every
occurrence of `p` is replaced by `r`. -/
def repl1 (p : Char) (r : List Char) (s : List Char) : List Char :=
  s.flatMap (fun c => if c = p then r else [c])

/-- The entity for the less-than sign. -/
def entLt : List Char := ampC :: ( "lt;".data )

/-- The entity for the greater-than sign. -/
def entGt : List Char := ampC :: ( "gt;".data )

/-- The entity for the ampersand. -/
def entAmp : List Char := ampC :: ( "amp;".data )

/-- The entity for the double quote. -/
def entQuot : List Char := ampC :: ( "quot;".data )

/-- The entity for the apostrophe. -/
def entApos : List Char := ampC :: ( "apos;".data )

/-- Model of `escapeXml` from src/src/Format.res lines 58-65: five sequential
`String.replaceAll` passes, in source order `<`, `>`, `&`, double quote,
apostrophe.  Note the `&` pass runs third, after the `<` and `>` passes. -/
def escapeXml (text : List Char) : List Char :=
  repl1 aposC entApos
    (repl1 quotC entQuot
      (repl1 ampC entAmp
        (repl1 gtC entGt
          (repl1 ltC entLt text))))

/-- The per-character image of the composed five passes of `escapeXml`
(computed, not assumed: see `escapeXml_eq_flatMap`).  The `<` and `>`
entities come out double-escaped because the `&` pass runs after them. -/
def escChar (c : Char) : List Char :=
  if c = ltC then ampC :: ( "amp;lt;".data )
  else if c = gtC then ampC :: ( "amp;gt;".data )
  else if c = ampC then ampC :: ( "amp;".data )
  else if c = quotC then ampC :: ( "quot;".data )
  else if c = aposC then ampC :: ( "apos;".data )
  else [c]

/-- Decides whether a character list contains no raw `<`, `>`, double quote
or apostrophe, and every ampersand starts one of the entity references
`amp;`, `quot;`, `apos;`, `lt;`, `gt;` - i.e. none of the five special
characters occurs outside an entity reference. -/
def xmlSafe : List Char → Bool
  | [] => true
  | c :: rest =>
    if c = ltC ∨ c = gtC ∨ c = quotC ∨ c = aposC then false
    else if c = ampC then
      if ( "amp;".data ).isPrefixOf rest then xmlSafe (rest.drop 4)
      else if ( "quot;".data ).isPrefixOf rest then xmlSafe (rest.drop 5)
      else if ( "apos;".data ).isPrefixOf rest then xmlSafe (rest.drop 5)
      else if ( "lt;".data ).isPrefixOf rest then xmlSafe (rest.drop 3)
      else if ( "gt;".data ).isPrefixOf rest then xmlSafe (rest.drop 3)
      else false
    else xmlSafe rest
termination_by s => s.length
decreasing_by
  all_goals simp [List.length_drop]
  all_goals omega

/-- A creator record, mirroring the `creator` type of src/src/Format.res:
`firstName` is optional, `lastName` and `creatorType` are plain strings. -/
structure creator where
  firstName : Option (List Char)
  lastName : List Char
  creatorType : List Char

/-- A tag record, mirroring the `tag` type of src/src/Format.res. -/
structure tag where
  tag : List Char

/-- A Zotero item as consumed by src/src/Format.res: `displayTitle` models
`getDisplayTitle()`, `creators` models `getCreators()`, `tags` models
`getTags()` (which may be absent), the remaining fields are the optional
item fields. -/
structure zoteroItem where
  displayTitle : List Char
  creators : List creator
  tags : Option (List tag)
  libraryKey : List Char
  itemType : Option (List Char)
  date : Option (List Char)
  abstractNote : Option (List Char)
  publisher : Option (List Char)
  language : Option (List Char)
  rights : Option (List Char)

/-- Model of `creatorToFullName` from src/src/Format.res lines 70-75. -/
def creatorToFullName (c : creator) : List Char :=
  match c.firstName with
  | some first => first ++ spC :: c.lastName
  | none => c.lastName

/-- Model of the `itemTypeMap` lookup table from src/src/Format.res lines
43-52 (identical to `ITEM_TYPE_MAP` in lib/format.js): the fixed 8-entry
map from Zotero item types to Dublin Core categories. -/
def itemTypeMap (t : List Char) : Option (List Char) :=
  if t = ( "book".data ) then some ( "Text".data )
  else if t = ( "journalArticle".data ) then some ( "Text".data )
  else if t = ( "conferencePaper".data ) then some ( "Text".data )
  else if t = ( "thesis".data ) then some ( "Text".data )
  else if t = ( "webpage".data ) then some ( "InteractiveResource".data )
  else if t = ( "film".data ) then some ( "MovingImage".data )
  else if t = ( "audioRecording".data ) then some ( "Sound".data )
  else if t = ( "artwork".data ) then some ( "Image".data )
  else none

/-- Wraps an attribute value in double quotes, used to spell out the root
element template strings without quote characters in literals. -/
def attrQ (s : List Char) : List Char := quotC :: (s ++ [ quotC ])

/-- The `dcRootElement` template string of src/src/Format.res line 40. -/
def dcRootElement : List Char :=
  ( "<oai_dc:dc xmlns:oai_dc=".data )
  ++ attrQ ( "http://www.openarchives.org/OAI/2.0/oai_dc/".data )
  ++ ( " xmlns:dc=".data )
  ++ attrQ ( "http://purl.org/dc/elements/1.1/".data )
  ++ ( " xmlns:xsi=".data )
  ++ attrQ ( "http://www.w3.org/2001/XMLSchema-instance".data )
  ++ ( " xsi:schemaLocation=".data )
  ++ attrQ ( "http://www.openarchives.org/OAI/2.0/oai_dc/ http://www.openarchives.org/OAI/2.0/oai_dc.xsd".data )
  ++ ( " />".data )

/-- Model of `String.replace` (first occurrence only), as applied to the
root element template in `generateDC` of src/src/Format.res line 184. -/
def replaceOnce (s pat rep : List Char) : List Char :=
  match s with
  | [] => []
  | c :: rest =>
    if pat.isPrefixOf (c :: rest) then rep ++ (c :: rest).drop pat.length
    else c :: replaceOnce rest pat rep

/-- One two-space-indented XML element line `  <name>content</name>`, the
shape of every `xml->Array.push` element line in `generateDC` of
src/src/Format.res. -/
def dcElemLine (name content : List Char) : List Char :=
  ( "  <".data ) ++ name ++ ( ">".data ) ++ content ++ ( "</".data ) ++ name ++ ( ">".data )

/-- The zero-or-one element lines produced for one optional item field in
`generateDC` of src/src/Format.res: absent field, no line. -/
def optDcLine (name : List Char) (o : Option (List Char)) : List (List Char) :=
  match o with
  | some v => [ dcElemLine name (escapeXml v) ]
  | none => []

/-- The element name chosen for a creator in `generateDC` of
src/src/Format.res lines 197-200: role `author` or `creator` maps to
`dc:creator`, anything else to `dc:contributor`. -/
def dcCreatorElemName (c : creator) : List Char :=
  if c.creatorType = ( "author".data ) ∨ c.creatorType = ( "creator".data )
  then ( "dc:creator".data ) else ( "dc:contributor".data )

/-- Model of `generateDC` from src/src/Format.res lines 178-257, as the
array of lines pushed to `xml` (the source joins them with a newline):
opened root element, identifier, optional title, one creator-or-contributor
line per creator, then the optional date, description, type, publisher,
language, subject and rights lines, then the closing tag. -/
def dcLines (item : zoteroItem) : List (List Char) :=
  [ replaceOnce dcRootElement ( "/>".data ) ( ">".data ) ]
  ++ [ dcElemLine ( "dc:identifier".data ) (escapeXml item.libraryKey) ]
  ++ (if item.displayTitle = [] then []
      else [ dcElemLine ( "dc:title".data ) (escapeXml item.displayTitle) ])
  ++ item.creators.map (fun c => dcElemLine (dcCreatorElemName c) (escapeXml (creatorToFullName c)))
  ++ optDcLine ( "dc:date".data ) item.date
  ++ optDcLine ( "dc:description".data ) item.abstractNote
  ++ (match item.itemType with
      | some t => [ dcElemLine ( "dc:type".data ) (escapeXml ((itemTypeMap t).getD ( "Text".data ))) ]
      | none => [])
  ++ optDcLine ( "dc:publisher".data ) item.publisher
  ++ optDcLine ( "dc:language".data ) item.language
  ++ (match item.tags with
      | some ts => ts.map (fun tg => dcElemLine ( "dc:subject".data ) (escapeXml tg.tag))
      | none => [])
  ++ optDcLine ( "dc:rights".data ) item.rights
  ++ [ ( "</oai_dc:dc>".data ) ]

/-- The serialized Dublin Core document of src/src/Format.res
`generateDC`: the pushed lines joined with a newline. -/
def generateDC (item : zoteroItem) : List Char :=
  List.intercalate [ lfC ] (dcLines item)

/-- The opening text of a type element line. -/
def typeLineOpen : List Char := ( "  <dc:type>".data )

/-- The opening text of a creator element line. -/
def creatorLineOpen : List Char := ( "  <dc:creator>".data )

/-- The opening text of a contributor element line. -/
def contribLineOpen : List Char := ( "  <dc:contributor>".data )

/-- Recognizes the type element lines of the generated document. -/
def isTypeLine (l : List Char) : Bool := typeLineOpen.isPrefixOf l

/-- Recognizes the creator and contributor element lines of the generated
document. -/
def isCreatorContribLine (l : List Char) : Bool :=
  creatorLineOpen.isPrefixOf l || contribLineOpen.isPrefixOf l

end Format

namespace FormatJs

/-- A JavaScript value as passed to `mapProperty` in lib/format.js: a
string, a number, or undefined/null. -/
inductive JsVal where
  | str (s : List Char)
  | num (n : Int)
  | undef
deriving DecidableEq

/-- JavaScript falsiness of a `JsVal`: the empty string, the number `0`
and `undefined`/`null` are falsy. -/
def jsFalsy : JsVal → Bool
  | .str s => s.isEmpty
  | .num n => n = 0
  | .undef => true

/-- JavaScript strict equality `property !== 0` test (negated): true
exactly for the number `0`. -/
def strictEqZero : JsVal → Bool
  | .num n => n = 0
  | _ => false

/-- JavaScript `String(property)` coercion. -/
def jsToString : JsVal → List Char
  | .str s => s
  | .num n => (toString n).data
  | .undef => ( "undefined".data )

/-- The single-pass regex sanitizer of `mapProperty` in lib/format.js
lines 53-56: one simultaneous pass replacing `<`, `>` and `&` by their
entities (quote and apostrophe are left alone). -/
def sanitize (s : List Char) : List Char :=
  s.flatMap (fun ch =>
    if ch = ltC then ampC :: ( "lt;".data )
    else if ch = gtC then ampC :: ( "gt;".data )
    else if ch = ampC then ampC :: ( "amp;".data )
    else [ch])

/-- An XML DOM node as built by lib/format.js: an element with a name, an
attribute list and children, or a text node. -/
inductive XNode where
  | elem (name : List Char) (attrs : List (List Char × List Char)) (children : List XNode)
  | text (s : List Char)

/-- Model of `mapProperty` from lib/format.js lines 40-61: when the
property is falsy and not the number 0, return null and leave the parent
untouched; otherwise create the element (with the optional attributes and
the sanitized text content), append it to the parent's children and
return it.  The result is the returned node paired with the parent's
updated child list. -/
def mapProperty (ns : List Char) (elementName : List Char) (property : JsVal)
    (attributes : List (List Char × List Char)) (parentChildren : List XNode) :
    Option XNode × List XNode :=
  if jsFalsy property && ! strictEqZero property then (none, parentChildren)
  else
    let newElement := XNode.elem elementName attributes [ XNode.text (sanitize (jsToString property)) ]
    (some newElement, parentChildren ++ [ newElement ])

/-- A creator object as consumed by lib/format.js: `firstName` and
`creatorType` may be absent (undefined), `lastName` is a string. -/
structure jsCreator where
  firstName : Option (List Char)
  lastName : List Char
  creatorType : Option (List Char)
deriving DecidableEq

/-- A Zotero item as consumed by lib/format.js; `none` in an optional
field models an absent (undefined) property, and a tag list entry is the
`tag.tag` string. -/
structure jsItem where
  displayTitle : List Char
  libraryKey : List Char
  creators : List jsCreator
  tags : Option (List (List Char))
  itemType : Option (List Char)
  date : Option (List Char)
  abstractNote : Option (List Char)
  publisher : Option (List Char)
  language : Option (List Char)
  rights : Option (List Char)
deriving DecidableEq

/-- JavaScript truthiness of an optional string field: absent or empty is
falsy. -/
def truthyO (o : Option (List Char)) : Bool :=
  match o with
  | some s => ! s.isEmpty
  | none => false

/-- The full name computed for a creator in lib/format.js (lines 87-89 and
199-201): `firstName` truthy gives `firstName lastName`, else `lastName`
alone. -/
def jsFullName (c : jsCreator) : List Char :=
  if truthyO c.firstName then (c.firstName.getD []) ++ spC :: c.lastName
  else c.lastName

/-- The namespace string `MODS_NS` of lib/format.js. -/
def modsNs : List Char := ( "http://www.loc.gov/mods/v3".data )

/-- The namespace string `DC_NS` of lib/format.js. -/
def dcNs : List Char := ( "http://purl.org/dc/elements/1.1/".data )

/-- Model of `addNameFromCreator` from lib/format.js lines 86-106: builds
the personal name element; the namePart goes through `mapProperty` (so an
empty full name yields no namePart), the role sub-element is added only
for a truthy `creatorType`. -/
def addNameFromCreator (c : jsCreator) : XNode :=
  let nameChildren := (mapProperty modsNs ( "namePart".data ) (JsVal.str (jsFullName c)) [] []).2
  let nameChildren2 :=
    if truthyO c.creatorType then
      nameChildren ++ [ XNode.elem ( "role".data ) []
        [ XNode.elem ( "roleTerm".data ) [ (( "type".data ), ( "text".data )) ]
          [ XNode.text (c.creatorType.getD []) ] ] ]
    else nameChildren
  XNode.elem ( "name".data ) [ (( "type".data ), ( "personal".data )) ] nameChildren2

/-- Model of `generateMODS` from lib/format.js lines 115-163: a null or
undefined item is an error; otherwise the mods root element is built with
the optional title block, one name per creator, and the optional
origin-info, abstract and type-of-resource blocks (the `xmlns` attributes
of the parsed template root are elided from the model). -/
def generateMODS (it : Option jsItem) : Except (List Char) XNode :=
  match it with
  | none => .error ( "Cannot generate MODS: item is null or undefined".data )
  | some item =>
    let ch1 : List XNode :=
      if item.displayTitle.isEmpty then []
      else [ XNode.elem ( "titleInfo".data ) []
        (mapProperty modsNs ( "title".data ) (JsVal.str item.displayTitle) [] []).2 ]
    let ch2 := ch1 ++ item.creators.map addNameFromCreator
    let ch3 :=
      if truthyO item.date then
        ch2 ++ [ XNode.elem ( "originInfo".data ) []
          (mapProperty modsNs ( "dateIssued".data ) (JsVal.str (item.date.getD [])) [] []).2 ]
      else ch2
    let ch4 :=
      if truthyO item.abstractNote then
        (mapProperty modsNs ( "abstract".data ) (JsVal.str (item.abstractNote.getD [])) [] ch3).2
      else ch3
    let ch5 :=
      if truthyO item.itemType then
        ch4 ++ [ XNode.elem ( "typeOfResource".data ) [] [ XNode.text (item.itemType.getD []) ] ]
      else ch4
    .ok (XNode.elem ( "mods".data ) [] ch5)

/-- The element name chosen for a creator in `generateDC` of lib/format.js
lines 204-206: strict equality with `author` or `creator` picks
`dc:creator`, anything else (including absent) picks `dc:contributor`. -/
def dcElemNameJs (c : jsCreator) : List Char :=
  if c.creatorType = some ( "author".data ) ∨ c.creatorType = some ( "creator".data )
  then ( "dc:creator".data ) else ( "dc:contributor".data )

/-- Model of `generateDC` from lib/format.js lines 172-258: a null or
undefined item is an error; otherwise the root element is built with the
identifier, the optional title, one creator-or-contributor per creator
(all through `mapProperty`), then the optional date, description, type
(via the 8-entry map with default Text, only when `itemType` is truthy),
publisher, language, subjects (skipping falsy tag strings) and rights. -/
def generateDC (it : Option jsItem) : Except (List Char) XNode :=
  match it with
  | none => .error ( "Cannot generate Dublin Core: item is null or undefined".data )
  | some item =>
    let ch1 := (mapProperty dcNs ( "dc:identifier".data ) (JsVal.str item.libraryKey) [] []).2
    let ch2 :=
      if item.displayTitle.isEmpty then ch1
      else (mapProperty dcNs ( "dc:title".data ) (JsVal.str item.displayTitle) [] ch1).2
    let ch3 := item.creators.foldl
      (fun acc c => (mapProperty dcNs (dcElemNameJs c) (JsVal.str (jsFullName c)) [] acc).2) ch2
    let ch4 :=
      if truthyO item.date then
        (mapProperty dcNs ( "dc:date".data ) (JsVal.str (item.date.getD [])) [] ch3).2
      else ch3
    let ch5 :=
      if truthyO item.abstractNote then
        (mapProperty dcNs ( "dc:description".data ) (JsVal.str (item.abstractNote.getD [])) [] ch4).2
      else ch4
    let ch6 :=
      if truthyO item.itemType then
        (mapProperty dcNs ( "dc:type".data )
          (JsVal.str ((Format.itemTypeMap (item.itemType.getD [])).getD ( "Text".data ))) [] ch5).2
      else ch5
    let ch7 :=
      if truthyO item.publisher then
        (mapProperty dcNs ( "dc:publisher".data ) (JsVal.str (item.publisher.getD [])) [] ch6).2
      else ch6
    let ch8 :=
      if truthyO item.language then
        (mapProperty dcNs ( "dc:language".data ) (JsVal.str (item.language.getD [])) [] ch7).2
      else ch7
    let ch9 :=
      match item.tags with
      | some ts => ts.foldl
          (fun acc tg =>
            if tg.isEmpty then acc
            else (mapProperty dcNs ( "dc:subject".data ) (JsVal.str tg) [] acc).2) ch8
      | none => ch8
    let ch10 :=
      if truthyO item.rights then
        (mapProperty dcNs ( "dc:rights".data ) (JsVal.str (item.rights.getD [])) [] ch9).2
      else ch9
    .ok (XNode.elem ( "oai_dc:dc".data ) [] ch10)

/-- Counts the direct children of the resulting root element bearing the
given element name (0 for an error result). -/
def childCount (r : Except (List Char) XNode) (nm : List Char) : Nat :=
  match r with
  | .ok (XNode.elem _ _ ch) =>
    ch.countP (fun n =>
      match n with
      | XNode.elem n2 _ _ => n2 = nm
      | XNode.text _ => false)
  | _ => 0

end FormatJs

namespace ErrorRecovery

/-- The `retryConfig` record of src/src/ErrorRecovery.res lines 4-8.  The
multiplier is a float in the source; it is modelled as a rational (the
source values, 2.0 in particular, are exactly representable). -/
structure retryConfig where
  maxAttempts : Nat
  delayMs : Nat
  backoffMultiplier : ℚ

/-- The `defaultRetryConfig` of src/src/ErrorRecovery.res lines 10-14:
3 attempts, 1000 ms initial delay, multiplier 2.0. -/
def defaultRetryConfig : retryConfig :=
  { maxAttempts := 3, delayMs := 1000, backoffMultiplier := 2 }

/-- The delay computed before retrying from a failed attempt, from
src/src/ErrorRecovery.res lines 41-44:
`delayMs * backoffMultiplier ^ (attempt - 1)` truncated to an integer
(the values involved are non-negative, so `Belt.Float.toInt` truncation
coincides with the floor). -/
def delayTime (cfg : retryConfig) (attempt : Nat) : Int :=
  Int.floor ((cfg.delayMs : ℚ) * cfg.backoffMultiplier ^ (attempt - 1))

/-- The behaviour of one invocation of the wrapped async operation: it
either resolves with a value or throws (rejects) with an error string. -/
inductive AttemptResult (α : Type) where
  | resolves (v : α)
  | throws (e : List Char)

/-- The wrapped attempts-exhausted error message of
src/src/ErrorRecovery.res line 38:
`Failed after N attempts: <last error>`. -/
def wrapMsg (config : retryConfig) (e : List Char) : List Char :=
  ( "Failed after ".data ) ++ (toString config.maxAttempts).data
    ++ ( " attempts: ".data ) ++ e

/-- Model of `retryWithBackoff` from src/src/ErrorRecovery.res lines
24-52.  The operation is modelled as a function from the attempt number
(1-based) to that invocation's behaviour.  The result carries the returned
`result` value, the number of invocations performed, and the list of
delays awaited (in order).  Only a thrown exception counts as a failure;
a resolved value `v` - even when `v` is itself an `Error` - returns
`Ok v` at once. -/
def retryWithBackoff {α : Type} (operation : Nat → AttemptResult α)
    (config : retryConfig) (attempt : Nat) :
    Except (List Char) α × Nat × List Int :=
  match operation attempt with
  | .resolves v => (.ok v, 1, [])
  | .throws e =>
    if attempt ≥ config.maxAttempts then
      (.error (wrapMsg config e), 1, [])
    else
      let rest := retryWithBackoff operation config (attempt + 1)
      (rest.1, rest.2.1 + 1, delayTime config attempt :: rest.2.2)
termination_by config.maxAttempts - attempt
decreasing_by omega

/-- Model of `retry` from src/src/ErrorRecovery.res lines 55-57: retry
with the default configuration, starting at attempt 1. -/
def retry {α : Type} (operation : Nat → AttemptResult α) :
    Except (List Char) α × Nat × List Int :=
  retryWithBackoff operation defaultRetryConfig 1

end ErrorRecovery

namespace Exporter

/-- The environment one item presents to `processItem` of
src/src/Exporter.res: `att` is the result of the attachment lookup
(`none` = no attachment, `some none` = attachment with no file path,
`some (some p)` = resolved local path `p`); `mkdirOk` tells whether the
item-directory create succeeds; `copyOk` whether the attachment
validation-and-copy succeeds. -/
structure procItem where
  att : Option (Option (List Char))
  mkdirOk : Bool
  copyOk : Bool
deriving DecidableEq

/-- The value the inner `operation` of `processItem` (src/src/Exporter.res
lines 66-113) resolves to.  Every failure path returns an `Error` value
(the promise resolves; nothing is thrown): no attachment, no file path,
directory-create failure, copy failure.  The metadata generation and the
metadata-file writes have no failure path here.  The concrete error
strings of the directory and copy failures embed file paths; they are
modelled by fixed stand-ins. -/
def processItemOp (it : procItem) : Except (List Char) Unit :=
  match it.att with
  | none => .error ( "No attachment found".data )
  | some none => .error ( "No file path".data )
  | some (some _) =>
    if it.mkdirOk then
      (if it.copyOk then .ok () else .error ( "copy failed".data ))
    else .error ( "mkdir failed".data )

/-- Model of `processItem` from src/src/Exporter.res lines 63-128: the
operation is passed to `ErrorRecovery.retry` (it always resolves, with
the `result` value of `processItemOp`), and the item counts as a success
exactly when the retry wrapper returns `Ok`. -/
def processItem (it : procItem) : Bool :=
  match (ErrorRecovery.retry (fun _ => ErrorRecovery.AttemptResult.resolves (processItemOp it))).1 with
  | .ok _ => true
  | .error _ => false

/-- Whether `processItem` creates the item's payload subdirectory: `mkdir`
is reached only after the attachment and its path resolve, and the
directory exists afterwards exactly when the create succeeds. -/
def itemDirCreated (it : procItem) : Bool :=
  match it.att with
  | some (some _) => it.mkdirOk
  | _ => false

/-- The success/failure tallies of the item loop in `doExport`
(src/src/Exporter.res lines 181-196): success counts the items for which
`processItem` returned true. -/
def doExportCounts (items : List procItem) : Nat × Nat :=
  items.foldl
    (fun a it => if processItem it then (a.1 + 1, a.2) else (a.1, a.2 + 1))
    (0, 0)

/-- The number of subdirectories present under the payload root after the
item loop: one per item whose directory-create was reached and
succeeded. -/
def payloadDirCount (items : List procItem) : Nat :=
  items.countP (fun it => itemDirCreated it)

/-- The name of the BagIt declaration file written by `doExport`
(src/src/Exporter.res line 173). -/
def bagitFilename : List Char := ( "bagit.txt".data )

/-- The first line of the declaration file content of src/src/Exporter.res
line 174. -/
def bagitLine1 : List Char := ( "BagIt-Version: 1.0".data )

/-- The second line of the declaration file content of
src/src/Exporter.res line 174. -/
def bagitLine2 : List Char := ( "Tag-File-Character-Encoding: UTF-8".data )

/-- The exact content written to `bagit.txt` by src/src/Exporter.res line
174: `BagIt-Version: 1.0`, newline, `Tag-File-Character-Encoding: UTF-8`,
newline. -/
def bagitContent : List Char :=
  bagitLine1 ++ lfC :: (bagitLine2 ++ [ lfC ])

end Exporter

namespace ExporterJs

/-- The terminal state of one record in `itemSaver` of lib/exporter.js:
`Saved` (fully exported), `Skipped` (data absence: no attachment, no
path, or the attachment file does not exist - logged with `warn`),
`Failed` (an exceptional error was caught - logged with `error`). -/
inductive POutcome where
  | Saved
  | Skipped
  | Failed
deriving DecidableEq

/-- The environment one record presents to `itemSaver` of lib/exporter.js:
whether the attachment lookup finds one, the optional resolved file path,
whether the resolved file exists, and whether the directory create,
the MODS generation, the DC generation, the metadata writes and the
attachment copy succeed. -/
structure ItemEnv where
  hasAtt : Bool
  path : Option (List Char)
  fileExists : Bool
  mkdirOk : Bool
  modsOk : Bool
  dcOk : Bool
  writeOk : Bool
  copyOk : Bool
deriving DecidableEq

/-- Model of the per-item function of `itemSaver` from lib/exporter.js
lines 100-176, returning the record's terminal state together with
whether its payload subdirectory exists afterwards.  The steps run in
source order: attachment lookup, path resolution, file-existence check
(all three absences are Skipped, before any directory is created), then
`mkdir` (a throw is caught: Failed, no directory), then metadata
generation, metadata writes and the attachment copy (throws are caught:
Failed - but the directory created in the `mkdir` step remains). -/
def itemSaver (it : ItemEnv) : POutcome × Bool :=
  if it.hasAtt = false then (.Skipped, false)
  else
    match it.path with
    | none => (.Skipped, false)
    | some _ =>
      if it.fileExists = false then (.Skipped, false)
      else if it.mkdirOk = false then (.Failed, false)
      else if it.modsOk = false then (.Failed, true)
      else if it.dcOk = false then (.Failed, true)
      else if it.writeOk = false then (.Failed, true)
      else if it.copyOk = false then (.Failed, true)
      else (.Saved, true)

/-- The exact content written to `bagit.txt` by lib/exporter.js line 235:
`BagIt-Version: 0.97`, newline, `Tag-File-Character-Encoding: UTF-8` -
with no trailing newline. -/
def bagitContent : List Char :=
  ( "BagIt-Version: 0.97".data ) ++ lfC :: ( "Tag-File-Character-Encoding: UTF-8".data )

end ExporterJs

/-- A concrete item whose `itemType` is absent (the other fields are
populated), used to exercise the type-element behaviour. -/
def itemNoType : Format.zoteroItem :=
  { displayTitle := ( "A Title".data )
    creators := [ { firstName := some ( "Ada".data ), lastName := ( "Lovelace".data ), creatorType := ( "author".data ) } ]
    tags := some [ { tag := ( "history".data ) } ]
    libraryKey := ( "KEY1".data )
    itemType := none
    date := some ( "1843".data )
    abstractNote := some ( "Notes".data )
    publisher := some ( "Press".data )
    language := some ( "en".data )
    rights := some ( "PD".data ) }

/-- A creator with an empty family name and no given name, role author. -/
def badCreatorJs : FormatJs.jsCreator :=
  { firstName := none, lastName := [], creatorType := some ( "author".data ) }

/-- A concrete (non-null) item whose only creator has an empty family
name. -/
def itemBadJs : FormatJs.jsItem :=
  { displayTitle := ( "T".data )
    libraryKey := ( "K".data )
    creators := [ badCreatorJs ]
    tags := none
    itemType := none
    date := none
    abstractNote := none
    publisher := none
    language := none
    rights := none }

/-- A concrete item with title and all remaining optional string fields
present but empty, and one empty tag string. -/
def itemEmptyFieldsJs : FormatJs.jsItem :=
  { displayTitle := ( "T".data )
    libraryKey := ( "K".data )
    creators := []
    tags := some [ [] ]
    itemType := some []
    date := some []
    abstractNote := some []
    publisher := some []
    language := some []
    rights := some [] }

/-- A record environment whose attachment resolves and whose directory
create succeeds, but whose MODS metadata generation fails. -/
def envMetaFail : ExporterJs.ItemEnv :=
  { hasAtt := true, path := some ( "/tmp/a.pdf".data ), fileExists := true,
    mkdirOk := true, modsOk := false, dcOk := true, writeOk := true, copyOk := true }

/-- A record whose attachment resolves to a local path and whose file
operations all succeed. -/
def recOk1 : Exporter.procItem :=
  { att := some (some ( "/tmp/p1.pdf".data )), mkdirOk := true, copyOk := true }

/-- A record whose attachment is found but resolves to no file path. -/
def recNoPath : Exporter.procItem :=
  { att := some none, mkdirOk := true, copyOk := true }

/-- A second fully-successful record. -/
def recOk3 : Exporter.procItem :=
  { att := some (some ( "/tmp/p3.pdf".data )), mkdirOk := true, copyOk := true }

/-- A record with no attachment at all. -/
def recNoAtt : Exporter.procItem :=
  { att := none, mkdirOk := true, copyOk := true }

/-- An operation that throws on every invocation. -/
def opAlwaysThrows : Nat → ErrorRecovery.AttemptResult Unit :=
  fun _ => ErrorRecovery.AttemptResult.throws ( "boom".data )

/-- A record environment with no attachment at all. -/
def envNoAtt : ExporterJs.ItemEnv :=
  { hasAtt := false, path := none, fileExists := false,
    mkdirOk := true, modsOk := true, dcOk := true, writeOk := true, copyOk := true }

/-- A record environment whose attachment is found but yields no file
path. -/
def envNoPath : ExporterJs.ItemEnv :=
  { hasAtt := true, path := none, fileExists := false,
    mkdirOk := true, modsOk := true, dcOk := true, writeOk := true, copyOk := true }

-- ======================= theorems =======================

namespace Format

theorem repl1_cons (p : Char) (r : List Char) (c : Char) (s : List Char) :
    repl1 p r (c :: s) = (if c = p then r else [c]) ++ repl1 p r s := by
  simp [repl1]

theorem repl1_append (p : Char) (r : List Char) (a b : List Char) :
    repl1 p r (a ++ b) = repl1 p r a ++ repl1 p r b := by
  simp [repl1]

theorem escapeXml_append (a b : List Char) :
    escapeXml (a ++ b) = escapeXml a ++ escapeXml b := by
  simp [escapeXml, repl1_append]

theorem escapeXml_singleton (c : Char) : escapeXml [c] = escChar c := by
  by_cases h1 : c = ltC
  · subst h1; decide
  by_cases h2 : c = gtC
  · subst h2; decide
  by_cases h3 : c = ampC
  · subst h3; decide
  by_cases h4 : c = quotC
  · subst h4; decide
  by_cases h5 : c = aposC
  · subst h5; decide
  simp [escapeXml, repl1, escChar, h1, h2, h3, h4, h5]

theorem escapeXml_eq_flatMap (s : List Char) :
    escapeXml s = s.flatMap escChar := by
  induction s with
  | nil => rfl
  | cons c s ih =>
    have h : (c :: s) = [c] ++ s := rfl
    rw [h, escapeXml_append, escapeXml_singleton, ih]
    simp

theorem xmlSafe_escChar (c : Char) (rest : List Char) :
    xmlSafe (escChar c ++ rest) = xmlSafe rest := by
  by_cases h1 : c = ltC
  · subst h1; simp [escChar, xmlSafe, ltC, gtC, ampC, quotC, aposC]
  by_cases h2 : c = gtC
  · subst h2; simp [escChar, h1, xmlSafe, ltC, gtC, ampC, quotC, aposC]
  by_cases h3 : c = ampC
  · subst h3; simp [escChar, h1, h2, xmlSafe, ltC, gtC, ampC, quotC, aposC]
  by_cases h4 : c = quotC
  · subst h4; simp [escChar, h1, h2, h3, xmlSafe, ltC, gtC, ampC, quotC, aposC]
  by_cases h5 : c = aposC
  · subst h5; simp [escChar, h1, h2, h3, h4, xmlSafe, ltC, gtC, ampC, quotC, aposC]
  have hlt : ¬ (c = ltC ∨ c = gtC ∨ c = quotC ∨ c = aposC) := by
    simp [h1, h2, h4, h5]
  simp [escChar, h1, h2, h3, h4, h5, xmlSafe, hlt]

theorem xmlSafe_escapeXml (s : List Char) : xmlSafe (escapeXml s) = true := by
  rw [escapeXml_eq_flatMap]
  induction s with
  | nil => simp [xmlSafe]
  | cons c s ih =>
    rw [List.flatMap_cons, xmlSafe_escChar]
    exact ih

theorem isTypeLine_type (c : List Char) :
    isTypeLine (dcElemLine ( "dc:type".data ) c) = true := by
  simp [isTypeLine, typeLineOpen, dcElemLine, List.isPrefixOf]

theorem isTypeLine_identifier (c : List Char) :
    isTypeLine (dcElemLine ( "dc:identifier".data ) c) = false := by
  simp [isTypeLine, typeLineOpen, dcElemLine, List.isPrefixOf]

theorem isTypeLine_title (c : List Char) :
    isTypeLine (dcElemLine ( "dc:title".data ) c) = false := by
  simp [isTypeLine, typeLineOpen, dcElemLine, List.isPrefixOf]

theorem isTypeLine_creator (c : List Char) :
    isTypeLine (dcElemLine ( "dc:creator".data ) c) = false := by
  simp [isTypeLine, typeLineOpen, dcElemLine, List.isPrefixOf]

theorem isTypeLine_contributor (c : List Char) :
    isTypeLine (dcElemLine ( "dc:contributor".data ) c) = false := by
  simp [isTypeLine, typeLineOpen, dcElemLine, List.isPrefixOf]

theorem isTypeLine_date (c : List Char) :
    isTypeLine (dcElemLine ( "dc:date".data ) c) = false := by
  simp [isTypeLine, typeLineOpen, dcElemLine, List.isPrefixOf]

theorem isTypeLine_description (c : List Char) :
    isTypeLine (dcElemLine ( "dc:description".data ) c) = false := by
  simp [isTypeLine, typeLineOpen, dcElemLine, List.isPrefixOf]

theorem isTypeLine_publisher (c : List Char) :
    isTypeLine (dcElemLine ( "dc:publisher".data ) c) = false := by
  simp [isTypeLine, typeLineOpen, dcElemLine, List.isPrefixOf]

theorem isTypeLine_language (c : List Char) :
    isTypeLine (dcElemLine ( "dc:language".data ) c) = false := by
  simp [isTypeLine, typeLineOpen, dcElemLine, List.isPrefixOf]

theorem isTypeLine_subject (c : List Char) :
    isTypeLine (dcElemLine ( "dc:subject".data ) c) = false := by
  simp [isTypeLine, typeLineOpen, dcElemLine, List.isPrefixOf]

theorem isTypeLine_rights (c : List Char) :
    isTypeLine (dcElemLine ( "dc:rights".data ) c) = false := by
  simp [isTypeLine, typeLineOpen, dcElemLine, List.isPrefixOf]

theorem isTypeLine_root :
    isTypeLine (replaceOnce dcRootElement ( "/>".data ) ( ">".data )) = false := by
  decide

theorem isTypeLine_close : isTypeLine ( "</oai_dc:dc>".data ) = false := by
  decide

theorem isCC_creator (c : List Char) :
    isCreatorContribLine (dcElemLine ( "dc:creator".data ) c) = true := by
  simp [isCreatorContribLine, creatorLineOpen, contribLineOpen, dcElemLine, List.isPrefixOf]

theorem isCC_contributor (c : List Char) :
    isCreatorContribLine (dcElemLine ( "dc:contributor".data ) c) = true := by
  simp [isCreatorContribLine, creatorLineOpen, contribLineOpen, dcElemLine, List.isPrefixOf]

theorem isCC_identifier (c : List Char) :
    isCreatorContribLine (dcElemLine ( "dc:identifier".data ) c) = false := by
  simp [isCreatorContribLine, creatorLineOpen, contribLineOpen, dcElemLine, List.isPrefixOf]

theorem isCC_title (c : List Char) :
    isCreatorContribLine (dcElemLine ( "dc:title".data ) c) = false := by
  simp [isCreatorContribLine, creatorLineOpen, contribLineOpen, dcElemLine, List.isPrefixOf]

theorem isCC_date (c : List Char) :
    isCreatorContribLine (dcElemLine ( "dc:date".data ) c) = false := by
  simp [isCreatorContribLine, creatorLineOpen, contribLineOpen, dcElemLine, List.isPrefixOf]

theorem isCC_description (c : List Char) :
    isCreatorContribLine (dcElemLine ( "dc:description".data ) c) = false := by
  simp [isCreatorContribLine, creatorLineOpen, contribLineOpen, dcElemLine, List.isPrefixOf]

theorem isCC_type (c : List Char) :
    isCreatorContribLine (dcElemLine ( "dc:type".data ) c) = false := by
  simp [isCreatorContribLine, creatorLineOpen, contribLineOpen, dcElemLine, List.isPrefixOf]

theorem isCC_publisher (c : List Char) :
    isCreatorContribLine (dcElemLine ( "dc:publisher".data ) c) = false := by
  simp [isCreatorContribLine, creatorLineOpen, contribLineOpen, dcElemLine, List.isPrefixOf]

theorem isCC_language (c : List Char) :
    isCreatorContribLine (dcElemLine ( "dc:language".data ) c) = false := by
  simp [isCreatorContribLine, creatorLineOpen, contribLineOpen, dcElemLine, List.isPrefixOf]

theorem isCC_subject (c : List Char) :
    isCreatorContribLine (dcElemLine ( "dc:subject".data ) c) = false := by
  simp [isCreatorContribLine, creatorLineOpen, contribLineOpen, dcElemLine, List.isPrefixOf]

theorem isCC_rights (c : List Char) :
    isCreatorContribLine (dcElemLine ( "dc:rights".data ) c) = false := by
  simp [isCreatorContribLine, creatorLineOpen, contribLineOpen, dcElemLine, List.isPrefixOf]

theorem isCC_root :
    isCreatorContribLine (replaceOnce dcRootElement ( "/>".data ) ( ">".data )) = false := by
  decide

theorem isCC_close : isCreatorContribLine ( "</oai_dc:dc>".data ) = false := by
  decide

end Format

namespace ErrorRecovery

theorem retryWithBackoff_resolves {α : Type} (operation : Nat → AttemptResult α)
    (config : retryConfig) (attempt : Nat) (v : α)
    (h : operation attempt = .resolves v) :
    retryWithBackoff operation config attempt = (.ok v, 1, []) := by
  rw [retryWithBackoff, h]

theorem retryWithBackoff_allThrows {α : Type} (operation : Nat → AttemptResult α)
    (config : retryConfig) (es : Nat → List Char)
    (hop : ∀ k, operation k = .throws (es k)) :
    ∀ (n a : Nat), 1 ≤ a → a ≤ config.maxAttempts → config.maxAttempts - a = n →
    retryWithBackoff operation config a =
      (.error (wrapMsg config (es config.maxAttempts)), n + 1,
       (List.range n).map (fun i => delayTime config (a + i))) := by
  intro n
  induction n with
  | zero =>
    intro a h1 h2 h3
    have ha : a = config.maxAttempts := by omega
    subst ha
    rw [retryWithBackoff, hop]
    simp
  | succ n ih =>
    intro a h1 h2 h3
    have hlt : ¬ a ≥ config.maxAttempts := by omega
    rw [retryWithBackoff, hop]
    simp only [hlt, if_false]
    rw [ih (a + 1) (by omega) (by omega) (by omega)]
    refine Prod.ext rfl (Prod.ext rfl ?_)
    simp only [List.range_succ_eq_map, List.map_cons, List.map_map]
    refine congrArg₂ List.cons (by simp) ?_
    refine List.map_congr_left ?_
    intro i hi
    simp [Function.comp]
    refine congrArg (delayTime config) (by omega)

end ErrorRecovery

namespace Exporter

theorem processItem_eq_true (it : procItem) : processItem it = true := by
  unfold processItem ErrorRecovery.retry
  rw [ErrorRecovery.retryWithBackoff_resolves
    (fun _ => ErrorRecovery.AttemptResult.resolves (processItemOp it))
    ErrorRecovery.defaultRetryConfig 1 (processItemOp it) rfl]

end Exporter

theorem filter_nil_of {α : Type} (p : α → Bool) (l : List α)
    (h : ∀ x ∈ l, p x = false) : l.filter p = [] := by
  induction l with
  | nil => rfl
  | cons a l ih =>
    rw [List.filter_cons, h a (List.mem_cons_self a l)]
    simp only [Bool.false_eq_true, if_false]
    exact ih (fun x hx => h x (List.mem_cons_of_mem a hx))

theorem filter_self_of {α : Type} (p : α → Bool) (l : List α)
    (h : ∀ x ∈ l, p x = true) : l.filter p = l := by
  induction l with
  | nil => rfl
  | cons a l ih =>
    rw [List.filter_cons, h a (List.mem_cons_self a l)]
    simp only [if_true]
    rw [ih (fun x hx => h x (List.mem_cons_of_mem a hx))]

theorem filter_singleton_of_false {α : Type} (p : α → Bool) (x : α)
    (h : p x = false) : [x].filter p = [] := by
  rw [List.filter_cons, h]
  simp

theorem filter_singleton_of_true {α : Type} (p : α → Bool) (x : α)
    (h : p x = true) : [x].filter p = [x] := by
  rw [List.filter_cons, h]
  simp

namespace Format

theorem isTypeLine_creatorLine (c : creator) :
    isTypeLine (dcElemLine (dcCreatorElemName c) (escapeXml (creatorToFullName c))) = false := by
  unfold dcCreatorElemName
  by_cases h : c.creatorType = ( "author".data ) ∨ c.creatorType = ( "creator".data )
  · rw [if_pos h]
    exact isTypeLine_creator _
  · rw [if_neg h]
    exact isTypeLine_contributor _

theorem filter_type_title (b : Prop) [Decidable b] (c : List Char) :
    (if b then ([] : List (List Char)) else [ dcElemLine ( "dc:title".data ) c ]).filter
      isTypeLine = [] := by
  by_cases hb : b
  · rw [if_pos hb]
    rfl
  · rw [if_neg hb]
    exact filter_singleton_of_false _ _ (isTypeLine_title c)

theorem filter_type_optDcLine (nm : List Char) (o : Option (List Char))
    (h : ∀ c, isTypeLine (dcElemLine nm c) = false) :
    (optDcLine nm o).filter isTypeLine = [] := by
  cases o with
  | none => rfl
  | some v => exact filter_singleton_of_false _ _ (h (escapeXml v))

theorem filter_type_creators (cs : List creator) :
    (cs.map (fun c => dcElemLine (dcCreatorElemName c) (escapeXml (creatorToFullName c)))).filter
      isTypeLine = [] := by
  refine filter_nil_of _ _ ?_
  intro x hx
  obtain ⟨c, hc, rfl⟩ := List.mem_map.1 hx
  exact isTypeLine_creatorLine c

theorem filter_type_tags (o : Option (List tag)) :
    ((match o with
      | some ts => ts.map (fun tg => dcElemLine ( "dc:subject".data ) (escapeXml tg.tag))
      | none => []) : List (List Char)).filter isTypeLine = [] := by
  cases o with
  | none => rfl
  | some ts =>
    refine filter_nil_of _ _ ?_
    intro x hx
    obtain ⟨tg, htg, rfl⟩ := List.mem_map.1 hx
    exact isTypeLine_subject _

theorem filter_type_typeSegment (o : Option (List Char)) :
    ((match o with
      | some t => [ dcElemLine ( "dc:type".data ) (escapeXml ((itemTypeMap t).getD ( "Text".data ))) ]
      | none => []) : List (List Char)).filter isTypeLine =
      (match o with
       | some t => [ dcElemLine ( "dc:type".data ) (escapeXml ((itemTypeMap t).getD ( "Text".data ))) ]
       | none => []) := by
  cases o with
  | none => rfl
  | some t => exact filter_singleton_of_true _ _ (isTypeLine_type _)

theorem filter_isTypeLine_dcLines (item : zoteroItem) :
    (dcLines item).filter isTypeLine =
      (match item.itemType with
       | some t => [ dcElemLine ( "dc:type".data ) (escapeXml ((itemTypeMap t).getD ( "Text".data ))) ]
       | none => []) := by
  unfold dcLines
  simp only [List.filter_append]
  rw [filter_singleton_of_false _ _ isTypeLine_root,
    filter_singleton_of_false _ _ (isTypeLine_identifier _),
    filter_type_title, filter_type_creators,
    filter_type_optDcLine _ _ isTypeLine_date,
    filter_type_optDcLine _ _ isTypeLine_description,
    filter_type_typeSegment, filter_type_optDcLine _ _ isTypeLine_publisher,
    filter_type_optDcLine _ _ isTypeLine_language, filter_type_tags,
    filter_type_optDcLine _ _ isTypeLine_rights,
    filter_singleton_of_false _ _ isTypeLine_close]
  simp only [List.append_nil, List.nil_append]

end Format

namespace Format

theorem isCC_creatorLine (c : creator) :
    isCreatorContribLine (dcElemLine (dcCreatorElemName c) (escapeXml (creatorToFullName c))) = true := by
  unfold dcCreatorElemName
  by_cases h : c.creatorType = ( "author".data ) ∨ c.creatorType = ( "creator".data )
  · rw [if_pos h]
    exact isCC_creator _
  · rw [if_neg h]
    exact isCC_contributor _

theorem filter_cc_title (b : Prop) [Decidable b] (c : List Char) :
    (if b then ([] : List (List Char)) else [ dcElemLine ( "dc:title".data ) c ]).filter
      isCreatorContribLine = [] := by
  by_cases hb : b
  · rw [if_pos hb]
    rfl
  · rw [if_neg hb]
    exact filter_singleton_of_false _ _ (isCC_title c)

theorem filter_cc_optDcLine (nm : List Char) (o : Option (List Char))
    (h : ∀ c, isCreatorContribLine (dcElemLine nm c) = false) :
    (optDcLine nm o).filter isCreatorContribLine = [] := by
  cases o with
  | none => rfl
  | some v => exact filter_singleton_of_false _ _ (h (escapeXml v))

theorem filter_cc_creators (cs : List creator) :
    (cs.map (fun c => dcElemLine (dcCreatorElemName c) (escapeXml (creatorToFullName c)))).filter
      isCreatorContribLine =
      cs.map (fun c => dcElemLine (dcCreatorElemName c) (escapeXml (creatorToFullName c))) := by
  refine filter_self_of _ _ ?_
  intro x hx
  obtain ⟨c, hc, rfl⟩ := List.mem_map.1 hx
  exact isCC_creatorLine c

theorem filter_cc_tags (o : Option (List tag)) :
    ((match o with
      | some ts => ts.map (fun tg => dcElemLine ( "dc:subject".data ) (escapeXml tg.tag))
      | none => []) : List (List Char)).filter isCreatorContribLine = [] := by
  cases o with
  | none => rfl
  | some ts =>
    refine filter_nil_of _ _ ?_
    intro x hx
    obtain ⟨tg, htg, rfl⟩ := List.mem_map.1 hx
    exact isCC_subject _

theorem filter_cc_typeSegment (o : Option (List Char)) :
    ((match o with
      | some t => [ dcElemLine ( "dc:type".data ) (escapeXml ((itemTypeMap t).getD ( "Text".data ))) ]
      | none => []) : List (List Char)).filter isCreatorContribLine = [] := by
  cases o with
  | none => rfl
  | some t => exact filter_singleton_of_false _ _ (isCC_type _)

theorem filter_isCC_dcLines (item : zoteroItem) :
    (dcLines item).filter isCreatorContribLine =
      item.creators.map (fun c => dcElemLine (dcCreatorElemName c) (escapeXml (creatorToFullName c))) := by
  unfold dcLines
  simp only [List.filter_append]
  rw [filter_singleton_of_false _ _ isCC_root,
    filter_singleton_of_false _ _ (isCC_identifier _),
    filter_cc_title, filter_cc_creators,
    filter_cc_optDcLine _ _ isCC_date,
    filter_cc_optDcLine _ _ isCC_description,
    filter_cc_typeSegment, filter_cc_optDcLine _ _ isCC_publisher,
    filter_cc_optDcLine _ _ isCC_language, filter_cc_tags,
    filter_cc_optDcLine _ _ isCC_rights,
    filter_singleton_of_false _ _ isCC_close]
  simp only [List.append_nil, List.nil_append]

end Format

-- ======================= claim theorems =======================

/-- Claim C1, counterexample: `escapeXml` double-escapes `<` (the `&` pass
runs after the `<` pass), so `escapeXml` maps the distinct inputs `<` and
`&lt;` to the same output `&amp;lt;`; being non-injective, no `unescape`
function can satisfy `unescape(escape(t)) = t` for all `t`, refuting the
round-trip (and the order-independence) asserted by the claim. -/
theorem C1_cex_escape_not_injective :
    Format.escapeXml ( "<".data ) = ( "&amp;lt;".data )
    ∧ Format.escapeXml ( "&lt;".data ) = ( "&amp;lt;".data )
    ∧ ( "<".data ) ≠ ( "&lt;".data )
    ∧ ¬ ∃ u : List Char → List Char, ∀ t, u (Format.escapeXml t) = t := by
  refine ⟨by decide, by decide, by decide, ?_⟩
  rintro ⟨u, hu⟩
  have h1 := hu ( "<".data )
  have h2 := hu ( "&lt;".data )
  rw [show Format.escapeXml ( "&lt;".data ) = Format.escapeXml ( "<".data ) from by decide] at h2
  rw [h1] at h2
  exact absurd h2 (by decide)

/-- Claim C1, amended: for every input `t`, `escapeXml t` contains none of
the raw characters `<`, `>`, `&`, double quote, apostrophe outside of
entity references (every ampersand in the output heads an entity
reference); the round-trip and order-independence parts of the claim fail,
because the `&` pass runs after the `<` and `>` passes and double-escapes
their entities. -/
theorem C1_escape_no_raw_specials (t : List Char) :
    Format.xmlSafe (Format.escapeXml t) = true :=
  Format.xmlSafe_escapeXml t

/-- Claim C2, counterexample: a record whose attachment resolves and whose
directory-create succeeds but whose MODS metadata generation fails ends
Failed with its payload subdirectory already created and left in place -
the subdirectory exists although metadata generation did not succeed,
refuting the claimed "only if metadata generation succeeds". -/
theorem C2_cex_dir_without_metadata :
    ExporterJs.itemSaver envMetaFail = (ExporterJs.POutcome.Failed, true)
    ∧ envMetaFail.modsOk = false := by
  exact ⟨rfl, rfl⟩

/-- Claim C2, amended: a record subdirectory exists after `itemSaver`
exactly when the attachment lookup, the path resolution, the
file-existence check and the directory-create all succeed (metadata
generation happens after the create, and its failure leaves the directory
behind); in particular a record with no attachment or no resolvable local
path produces no subdirectory at all, in the legacy exporter and in
`processItem` of the ReScript exporter alike. -/
theorem C2_dir_iff_attachment_resolved (env : ExporterJs.ItemEnv) :
    ((ExporterJs.itemSaver env).2 =
      (env.hasAtt && env.path.isSome && env.fileExists && env.mkdirOk))
    ∧ (env.hasAtt = false ∨ env.path = none → (ExporterJs.itemSaver env).2 = false)
    ∧ (∀ it : Exporter.procItem, it.att = none ∨ it.att = some none →
        Exporter.itemDirCreated it = false) := by
  have h1 : (ExporterJs.itemSaver env).2 =
      (env.hasAtt && env.path.isSome && env.fileExists && env.mkdirOk) := by
    obtain ⟨ha, hp, hf, hm, hmo, hd, hw, hc⟩ := env
    cases ha <;> cases hp <;> cases hf <;> cases hm <;> cases hmo <;> cases hd
      <;> cases hw <;> cases hc <;> simp [ExporterJs.itemSaver]
  refine ⟨h1, ?_, ?_⟩
  · intro h
    rw [h1]
    rcases h with h | h <;> simp [h]
  · intro it h
    rcases h with h | h <;> simp [Exporter.itemDirCreated, h]

/-- Claim C2, witness for the amended theorem: applied to a record with no
attachment and to one with no file path. -/
theorem C2_witness :
    ((ExporterJs.itemSaver envNoAtt).2 = false)
    ∧ ((ExporterJs.itemSaver envNoPath).2 = false)
    ∧ Exporter.itemDirCreated recNoAtt = false := by
  refine ⟨(C2_dir_iff_attachment_resolved envNoAtt).2.1 (Or.inl rfl),
    (C2_dir_iff_attachment_resolved envNoPath).2.1 (Or.inr rfl),
    (C2_dir_iff_attachment_resolved envNoAtt).2.2 recNoAtt (Or.inl rfl)⟩

/-- Claim C3, divergence witness (the claim is right, the code is wrong):
for three records where record 2 resolves an attachment but no file path,
the payload directory receives exactly 2 subdirectories, but `doExport`
tallies 3 successes and 0 failures - the skip is reported as a success
(no skip count exists), because `processItem` signals the skip by an
`Error` value that the exception-based retry wrapper rewraps in `Ok`.
The legacy `itemSaver` does classify that record as Skipped. -/
theorem C3_skip_counted_as_success :
    Exporter.doExportCounts [ recOk1, recNoPath, recOk3 ] = (3, 0)
    ∧ Exporter.payloadDirCount [ recOk1, recNoPath, recOk3 ] = 2
    ∧ Exporter.processItemOp recNoPath = Except.error ( "No file path".data )
    ∧ ExporterJs.itemSaver envNoPath = (ExporterJs.POutcome.Skipped, false) := by
  refine ⟨?_, by decide, rfl, rfl⟩
  simp [Exporter.doExportCounts, Exporter.processItem_eq_true]

/-- Claim C4: with every attempt throwing, `retryWithBackoff` starting at
attempt 1 invokes the operation exactly `maxAttempts` times, returns the
last error wrapped in the attempts-exhausted message, and waits
`delayMs * backoffMultiplier ^ (k - 1)` before retrying from failed
attempt `k`; an operation that resolves is invoked once, immediately,
with no delay; with the default config the two delays are 1000 ms and
2000 ms. -/
theorem C4_retry_with_backoff (cfg : ErrorRecovery.retryConfig)
    (op : Nat → ErrorRecovery.AttemptResult Unit) (es : Nat → List Char)
    (hmax : 1 ≤ cfg.maxAttempts) (hop : ∀ k, op k = .throws (es k)) :
    (ErrorRecovery.retryWithBackoff op cfg 1 =
      (.error (ErrorRecovery.wrapMsg cfg (es cfg.maxAttempts)), cfg.maxAttempts,
       (List.range (cfg.maxAttempts - 1)).map (fun i => ErrorRecovery.delayTime cfg (1 + i))))
    ∧ (∀ k, ErrorRecovery.delayTime cfg (k + 1) =
        Int.floor ((cfg.delayMs : ℚ) * cfg.backoffMultiplier ^ k))
    ∧ (∀ (op2 : Nat → ErrorRecovery.AttemptResult Unit) (v : Unit) (a : Nat),
        op2 a = .resolves v →
        ErrorRecovery.retryWithBackoff op2 cfg a = (.ok v, 1, []))
    ∧ ErrorRecovery.delayTime ErrorRecovery.defaultRetryConfig 1 = 1000
    ∧ ErrorRecovery.delayTime ErrorRecovery.defaultRetryConfig 2 = 2000 := by
  refine ⟨?_, ?_, ?_, ?_, ?_⟩
  · have h := ErrorRecovery.retryWithBackoff_allThrows op cfg es hop
      (cfg.maxAttempts - 1) 1 (le_refl 1) hmax (by omega)
    rw [h]
    have h2 : cfg.maxAttempts - 1 + 1 = cfg.maxAttempts := by omega
    rw [h2]
  · intro k
    simp [ErrorRecovery.delayTime]
  · exact fun op2 v a h => ErrorRecovery.retryWithBackoff_resolves op2 cfg a v h
  · norm_num [ErrorRecovery.delayTime, ErrorRecovery.defaultRetryConfig]
  · norm_num [ErrorRecovery.delayTime, ErrorRecovery.defaultRetryConfig]

/-- Claim C4, witness: the default config with an always-throwing
operation gives exactly 3 invocations, the wrapped error, and the delays
1000 ms then 2000 ms; a resolving operation is invoked once. -/
theorem C4_witness :
    (1 ≤ ErrorRecovery.defaultRetryConfig.maxAttempts)
    ∧ ErrorRecovery.retryWithBackoff opAlwaysThrows ErrorRecovery.defaultRetryConfig 1 =
        (.error (ErrorRecovery.wrapMsg ErrorRecovery.defaultRetryConfig ( "boom".data )), 3,
         [ (1000 : Int), 2000 ]) := by
  have h := C4_retry_with_backoff ErrorRecovery.defaultRetryConfig opAlwaysThrows
    (fun _ => ( "boom".data )) (by norm_num [ErrorRecovery.defaultRetryConfig])
    (fun k => rfl)
  refine ⟨by norm_num [ErrorRecovery.defaultRetryConfig], ?_⟩
  rw [h.1]
  refine congrArg₂ Prod.mk rfl (congrArg₂ Prod.mk rfl ?_)
  have hr : List.range (ErrorRecovery.defaultRetryConfig.maxAttempts - 1) = [0, 1] := by
    decide
  rw [hr]
  simp only [List.map_cons, List.map_nil]
  rw [show (1 + 0 : Nat) = 1 from rfl, show (1 + 1 : Nat) = 2 from rfl]
  rw [h.2.2.2.1, h.2.2.2.2]

/-- Claim C5, counterexample: the declaration content written by the
legacy exporter (lib/exporter.js line 235) is not two LF-terminated
lines - the second line has no trailing newline - so the claim as stated
fails on it. -/
theorem C5_cex_js_missing_trailing_lf :
    ¬ ∃ l1 l2 : List Char, lfC ∉ l1 ∧ lfC ∉ l2 ∧
      ExporterJs.bagitContent = l1 ++ lfC :: (l2 ++ [ lfC ]) := by
  rintro ⟨l1, l2, -, -, h⟩
  have h2 : (l1 ++ lfC :: l2) ++ [ lfC ] = ExporterJs.bagitContent := by
    rw [h]
    simp
  have h3 := congrArg List.getLast? h2
  rw [List.getLast?_concat] at h3
  have h4 : ExporterJs.bagitContent.getLast? = some (Char.ofNat 56) := by decide
  rw [h4] at h3
  exact absurd h3 (by decide)

/-- Claim C5, amended: the ReScript exporter (src/src/Exporter.res line
174) writes `bagit.txt` directly under the bag root with exactly two
LF-terminated lines - a version declaration and a UTF-8 tag-encoding
declaration - and no trailing content; the legacy exporter writes the
same two lines but omits the newline after the second. -/
theorem C5_bagit_declaration :
    Exporter.bagitContent = Exporter.bagitLine1 ++ lfC :: (Exporter.bagitLine2 ++ [ lfC ])
    ∧ lfC ∉ Exporter.bagitLine1
    ∧ lfC ∉ Exporter.bagitLine2
    ∧ Exporter.bagitLine1 = ( "BagIt-Version: 1.0".data )
    ∧ Exporter.bagitLine2 = ( "Tag-File-Character-Encoding: UTF-8".data )
    ∧ Exporter.bagitFilename = ( "bagit.txt".data )
    ∧ ExporterJs.bagitContent =
        ( "BagIt-Version: 0.97".data ) ++ lfC :: ( "Tag-File-Character-Encoding: UTF-8".data ) := by
  exact ⟨rfl, by decide, by decide, rfl, rfl, rfl, rfl⟩

/-- Claim C6, counterexample: for a concrete record whose `itemType` is
absent, the generated simple document contains no type element at all
(no line of the document is a `dc:type` element), refuting the claimed
default to the category string Text for an absent `itemType`. -/
theorem C6_cex_absent_itemType_no_type_element :
    itemNoType.itemType = none
    ∧ ¬ ∃ c : List Char, Format.dcElemLine ( "dc:type".data ) c ∈ Format.dcLines itemNoType := by
  refine ⟨rfl, ?_⟩
  rintro ⟨c, hc⟩
  have h0 : (Format.dcLines itemNoType).filter Format.isTypeLine = [] :=
    (Format.filter_isTypeLine_dcLines itemNoType).trans rfl
  have hmem : Format.dcElemLine ( "dc:type".data ) c ∈
      (Format.dcLines itemNoType).filter Format.isTypeLine :=
    List.mem_filter.2 ⟨hc, Format.isTypeLine_type c⟩
  rw [h0] at hmem
  exact absurd hmem (List.not_mem_nil _)

/-- Claim C6, amended: the type lines of the simple document are exactly
one `dc:type` element whose content is the image of `itemType` under the
fixed 8-category lookup table (defaulting to Text for an unknown value)
when `itemType` is present, and no type element at all when `itemType` is
absent. -/
theorem C6_type_element_mapping (item : Format.zoteroItem) :
    (Format.dcLines item).filter Format.isTypeLine =
      (match item.itemType with
       | some t => [ Format.dcElemLine ( "dc:type".data )
           (Format.escapeXml ((Format.itemTypeMap t).getD ( "Text".data ))) ]
       | none => []) :=
  Format.filter_isTypeLine_dcLines item

/-- Claim C7, counterexample: a non-null record whose only creator has an
empty family name (and no given name) is not an error for either
generator - both succeed - and the simple document contains no creator
and no contributor element for it: the creator is silently dropped,
refuting both the claimed MetadataError and the claimed
"not silently dropped". -/
theorem C7_cex_empty_family_not_error :
    badCreatorJs.lastName = [] ∧ badCreatorJs.firstName = none
    ∧ (FormatJs.generateDC (some itemBadJs)).isOk = true
    ∧ (FormatJs.generateMODS (some itemBadJs)).isOk = true
    ∧ FormatJs.childCount (FormatJs.generateDC (some itemBadJs)) ( "dc:creator".data ) = 0
    ∧ FormatJs.childCount (FormatJs.generateDC (some itemBadJs)) ( "dc:contributor".data ) = 0 := by
  refine ⟨rfl, rfl, rfl, rfl, by decide, by decide⟩

/-- Claim C7, amended: `generateMODS` and `generateDC` fail exactly for a
null/undefined record and for no other input; absence of any optional
field is never an error; and a creator whose family name is empty (with
no given name) is not an error either - `mapProperty` silently drops its
name content. -/
theorem C7_metadata_error_exactly_null (it : Option FormatJs.jsItem) :
    ((FormatJs.generateMODS it).isOk = it.isSome)
    ∧ ((FormatJs.generateDC it).isOk = it.isSome)
    ∧ (∀ (acc : List FormatJs.XNode) (c : FormatJs.jsCreator),
        c.firstName = none → c.lastName = [] →
        (FormatJs.mapProperty FormatJs.dcNs (FormatJs.dcElemNameJs c)
          (FormatJs.JsVal.str (FormatJs.jsFullName c)) [] acc).2 = acc) := by
  refine ⟨?_, ?_, ?_⟩
  · cases it <;> rfl
  · cases it <;> rfl
  · intro acc c h1 h2
    simp [FormatJs.mapProperty, FormatJs.jsFullName, FormatJs.truthyO, h1, h2,
      FormatJs.jsFalsy, FormatJs.strictEqZero]

/-- Claim C7, witness for the amended theorem: applied to the concrete
creator with empty family name. -/
theorem C7_witness :
    badCreatorJs.firstName = none ∧ badCreatorJs.lastName = []
    ∧ (FormatJs.mapProperty FormatJs.dcNs (FormatJs.dcElemNameJs badCreatorJs)
        (FormatJs.JsVal.str (FormatJs.jsFullName badCreatorJs)) [] []).2 = [] :=
  ⟨rfl, rfl, (C7_metadata_error_exactly_null (some itemBadJs)).2.2 [] badCreatorJs rfl rfl⟩

/-- Claim C8: the displayed full name is `givenName ++ " " ++ familyName`
when the given name is present and `familyName` alone otherwise; and the
creator-or-contributor lines of the simple document are exactly one per
creator, in source order, named `dc:creator` when the role is author or
creator and `dc:contributor` for every other role. -/
theorem C8_full_name_and_role_slots :
    (∀ (f l ct : List Char),
      Format.creatorToFullName { firstName := some f, lastName := l, creatorType := ct } =
        f ++ spC :: l
      ∧ Format.creatorToFullName { firstName := none, lastName := l, creatorType := ct } = l)
    ∧ (∀ item : Format.zoteroItem,
        (Format.dcLines item).filter Format.isCreatorContribLine =
          item.creators.map (fun c =>
            Format.dcElemLine
              (if c.creatorType = ( "author".data ) ∨ c.creatorType = ( "creator".data )
               then ( "dc:creator".data ) else ( "dc:contributor".data ))
              (Format.escapeXml (Format.creatorToFullName c)))) := by
  refine ⟨fun f l ct => ⟨rfl, rfl⟩, fun item => ?_⟩
  rw [Format.filter_isCC_dcLines]
  simp only [Format.dcCreatorElemName]

/-- Claim C9: the retry wrapper treats only a thrown exception as a
failed attempt - an operation that resolves, even to an `Error` value, is
invoked exactly once and its value returned wrapped in `Ok` - and
consequently `processItem` reports success for any item whose inner
operation resolved to an `Error` value. -/
theorem C9_resolved_error_is_success :
    (∀ (α : Type) (op : Nat → ErrorRecovery.AttemptResult α)
        (cfg : ErrorRecovery.retryConfig) (attempt : Nat) (v : α),
      op attempt = .resolves v →
      ErrorRecovery.retryWithBackoff op cfg attempt = (.ok v, 1, []))
    ∧ (∀ (it : Exporter.procItem) (e : List Char),
        Exporter.processItemOp it = .error e → Exporter.processItem it = true) :=
  ⟨fun _ op cfg a v h => ErrorRecovery.retryWithBackoff_resolves op cfg a v h,
   fun it _ _ => Exporter.processItem_eq_true it⟩

/-- Claim C9, witness: a record with no attachment, whose operation
resolves to an `Error` value, is reported as a success. -/
theorem C9_witness :
    Exporter.processItemOp recNoAtt = Except.error ( "No attachment found".data )
    ∧ Exporter.processItem recNoAtt = true :=
  ⟨rfl, C9_resolved_error_is_success.2 recNoAtt ( "No attachment found".data ) rfl⟩

/-- Claim C10: `mapProperty` applied to the empty string creates and
appends no element at all (the parent is returned unchanged), while the
number 0 does append an element with text content 0; consequently a
document generated with every optional field present-but-empty (and an
empty tag string) equals the one generated with those fields absent. -/
theorem C10_empty_string_no_element :
    (∀ (ns nm : List Char) (attrs : List (List Char × List Char))
        (children : List FormatJs.XNode),
      FormatJs.mapProperty ns nm (FormatJs.JsVal.str []) attrs children = (none, children))
    ∧ (∀ (ns nm : List Char) (attrs : List (List Char × List Char))
        (children : List FormatJs.XNode),
      (FormatJs.mapProperty ns nm (FormatJs.JsVal.num 0) attrs children).2 =
        children ++ [ FormatJs.XNode.elem nm attrs [ FormatJs.XNode.text ( "0".data ) ] ])
    ∧ FormatJs.generateDC (some itemEmptyFieldsJs) =
        FormatJs.generateDC (some { itemEmptyFieldsJs with
          tags := some [], itemType := none, date := none, abstractNote := none,
          publisher := none, language := none, rights := none }) := by
  refine ⟨?_, ?_, rfl⟩
  · intro ns nm attrs children
    simp [FormatJs.mapProperty, FormatJs.jsFalsy, FormatJs.strictEqZero]
  · intro ns nm attrs children
    simp [FormatJs.mapProperty, FormatJs.jsFalsy, FormatJs.strictEqZero,
      FormatJs.jsToString, FormatJs.sanitize]
    decide
